import Mathlib

/-!
Verification development for the voice-agent backend (src/backend/main.py).

The Python handlers are shallowly embedded as pure Lean functions.  Python
strings are modelled as Lean `String` over `List Char`; the network call made
by a handler is abstracted as an `Upstream` outcome parameter (the handler
code is a pure function of that outcome); the Python `try/except` structure is
translated by explicit case analysis, with the crucial fact that FastAPI
`HTTPException` is a subclass of `Exception` and is therefore caught by a
bare `except Exception` clause of the same `try` statement.

The model of `json.loads` is a fuel-based recursive-descent parser of the
JSON grammar accepted by the Python `json` module (strict strings, number
regex with the `NaN`, `Infinity`, `-Infinity` extras, last-wins duplicate
object keys).  Known simplifications, none observable by any theorem below:
`\u` escapes are decoded without surrogate-pair combination, and
lowercasing/whitespace predicates cover the ASCII range Python covers plus
nothing more exotic; all concrete inputs used in theorems are plain ASCII.
-/

/-- Whitespace set of the Python `str.strip()` method (ASCII part). -/
def pyIsSpace (c : Char) : Bool :=
  c == ' ' || c == '\t' || c == '\n' || c == '\r' || c == '\x0b' || c == '\x0c'

/-- Model of Python `s.strip()`: drop leading and trailing whitespace. -/
def pyStrip (s : String) : String :=
  ⟨((s.data.dropWhile pyIsSpace).reverse.dropWhile pyIsSpace).reverse⟩

/-- Model of Python `str.lower()` restricted to ASCII letters. -/
def pyLowerChar (c : Char) : Char :=
  if 65 ≤ c.toNat ∧ c.toNat ≤ 90 then Char.ofNat (c.toNat + 32) else c

/-- Model of Python `s.lower()` (ASCII letters). -/
def pyLower (s : String) : String :=
  ⟨s.data.map pyLowerChar⟩

/-- Model of the Python substring test `sub in s` (for nonempty `sub`). -/
def containsSub (sep : List Char) : List Char → Bool
  | [] => sep.isPrefixOf []
  | c :: cs => sep.isPrefixOf (c :: cs) || containsSub sep cs

/-- Suffix of the list strictly after the first occurrence of `sep`; for an
input containing `sep` this is Python `s.split(sep, 1)[-1]`. -/
def splitOnceLast (sep : List Char) : List Char → List Char
  | [] => []
  | c :: cs =>
    if sep.isPrefixOf (c :: cs) then (c :: cs).drop sep.length
    else splitOnceLast sep cs

/-- The part of the list before the first occurrence of `sep` (the whole list
when `sep` does not occur); this is Python `s.split(sep)[0]`. -/
def upToFirstSub (sep : List Char) : List Char → List Char
  | [] => []
  | c :: cs =>
    if sep.isPrefixOf (c :: cs) then [] else c :: upToFirstSub sep cs

/-- Split on every occurrence of a single character, Python `s.split(ch)`. -/
def splitOnChar (sep : Char) : List Char → List (List Char)
  | [] => [[]]
  | c :: cs =>
    if c == sep then [] :: splitOnChar sep cs
    else
      match splitOnChar sep cs with
      | [] => [[c]]
      | h :: t => (c :: h) :: t

/-- Model of Python `s.lstrip(chars)`: drop leading characters drawn from the
given character set. -/
def pyLStripSet (chars : List Char) (s : String) : String :=
  ⟨s.data.dropWhile (fun c => chars.contains c)⟩

/-- Component of a path after the last slash, as `pathlib` computes `name`
for the plain filenames the handler receives. -/
def pathName (f : String) : String :=
  ⟨(splitOnChar '/' f.data).getLastD f.data⟩

/-- Index of the last dot of a character list, if any. -/
def lastDotIndex (cs : List Char) : Option Nat :=
  match cs.reverse.findIdx? (fun c => c == '.') with
  | none => none
  | some j => some (cs.length - 1 - j)

/-- Model of `pathlib.Path(f).suffix`: the extension of the final component,
empty for hidden files, trailing dots and dotless names (CPython uses
`i = name.rfind(".")` and requires `0 < i < len(name) - 1`). -/
def pathSuffix (f : String) : String :=
  match lastDotIndex (pathName f).data with
  | none => ""
  | some i =>
    if 0 < i ∧ i < (pathName f).data.length - 1 then ⟨(pathName f).data.drop i⟩
    else ""

/-- JSON values as produced by the Python `json.loads`; numbers keep their
lexeme because no code under verification inspects a numeric payload. -/
inductive JValue where
  | null
  | bool (b : Bool)
  | num (lexeme : String)
  | str (s : String)
  | arr (items : List JValue)
  | obj (fields : List (String × JValue))

/-- Insertion into the association-list model of a Python dict: a repeated
key keeps its original position and receives the new value (last wins). -/
def dictInsert (fields : List (String × JValue)) (k : String) (v : JValue) :
    List (String × JValue) :=
  if fields.any (fun p => p.1 == k) then
    fields.map (fun p => if p.1 == k then (k, v) else p)
  else fields ++ [(k, v)]

/-- Model of Python `d.get(key)` on the dict association list. -/
def dictGet (fields : List (String × JValue)) (key : String) : Option JValue :=
  match fields.find? (fun p => p.1 == key) with
  | some p => some p.2
  | none => none

/-- JSON whitespace accepted between tokens by the Python `json` module. -/
def jsonWs (c : Char) : Bool :=
  c == ' ' || c == '\t' || c == '\n' || c == '\r'

/-- Drop JSON whitespace. -/
def skipWs (cs : List Char) : List Char :=
  cs.dropWhile jsonWs

/-- Value of a hexadecimal digit. -/
def hexVal? (c : Char) : Option Nat :=
  if 48 ≤ c.toNat ∧ c.toNat ≤ 57 then some (c.toNat - 48)
  else if 97 ≤ c.toNat ∧ c.toNat ≤ 102 then some (c.toNat - 87)
  else if 65 ≤ c.toNat ∧ c.toNat ≤ 70 then some (c.toNat - 55)
  else none

/-- Single-character JSON string escapes. -/
def escChar? : Char → Option Char
  | '"' => some '"'
  | '\\' => some '\\'
  | '/' => some '/'
  | 'b' => some (Char.ofNat 8)
  | 'f' => some (Char.ofNat 12)
  | 'n' => some (Char.ofNat 10)
  | 'r' => some (Char.ofNat 13)
  | 't' => some (Char.ofNat 9)
  | _ => none

/-- Body of a JSON string after the opening quote, strict mode: raw control
characters are rejected, escapes decoded.  Returns the decoded characters and
the rest of the input after the closing quote. -/
def parseStringBody : Nat → List Char → Option (List Char × List Char)
  | 0, _ => none
  | _ + 1, [] => none
  | fuel + 1, c :: cs =>
    if c == '"' then some ([], cs)
    else if c == '\\' then
      match cs with
      | 'u' :: h1 :: h2 :: h3 :: h4 :: rest =>
        match hexVal? h1, hexVal? h2, hexVal? h3, hexVal? h4 with
        | some a, some b, some d, some e =>
          match parseStringBody fuel rest with
          | some (body, r) => some (Char.ofNat (((a * 16 + b) * 16 + d) * 16 + e) :: body, r)
          | none => none
        | _, _, _, _ => none
      | e :: rest =>
        match escChar? e with
        | some ch =>
          match parseStringBody fuel rest with
          | some (body, r) => some (ch :: body, r)
          | none => none
        | none => none
      | [] => none
    else if c.toNat < 32 then none
    else
      match parseStringBody fuel cs with
      | some (body, r) => some (c :: body, r)
      | none => none

/-- Integer part of the JSON number regex: `0` or a nonzero digit followed by
digits. -/
def parseIntPart : List Char → Option (List Char × List Char)
  | [] => none
  | c :: rest =>
    if c == '0' then some (['0'], rest)
    else if c.isDigit then
      some (c :: rest.takeWhile Char.isDigit, rest.dropWhile Char.isDigit)
    else none

/-- Optional fraction part `.digits` of the JSON number regex. -/
def parseFracPart : List Char → List Char × List Char
  | '.' :: c :: rest =>
    if c.isDigit then
      ('.' :: c :: rest.takeWhile Char.isDigit, rest.dropWhile Char.isDigit)
    else ([], '.' :: c :: rest)
  | cs => ([], cs)

/-- Optional exponent part of the JSON number regex. -/
def parseExpPart : List Char → List Char × List Char
  | [] => ([], [])
  | e :: rest =>
    if e == 'e' || e == 'E' then
      match rest with
      | [] => ([], [e])
      | s :: rest2 =>
        if s == '+' || s == '-' then
          match rest2.takeWhile Char.isDigit with
          | [] => ([], e :: s :: rest2)
          | ds => (e :: s :: ds, rest2.dropWhile Char.isDigit)
        else
          match rest.takeWhile Char.isDigit with
          | [] => ([], e :: rest)
          | ds => (e :: ds, rest.dropWhile Char.isDigit)
    else ([], e :: rest)

/-- JSON number matching the regex used by the Python scanner. -/
def parseNumber (cs : List Char) : Option (String × List Char) :=
  let core : List Char → Option (List Char × List Char) := fun body =>
    match parseIntPart body with
    | none => none
    | some (ip, r1) =>
      match parseFracPart r1 with
      | (fp, r2) =>
        match parseExpPart r2 with
        | (ep, r3) => some (ip ++ fp ++ ep, r3)
  match cs with
  | '-' :: rest =>
    match core rest with
    | some (body, r) => some (⟨'-' :: body⟩, r)
    | none => none
  | _ =>
    match core cs with
    | some (body, r) => some (⟨body⟩, r)
    | none => none

/-- Comma-separated items of a JSON array after the opening bracket, given a
parser for one value; mirrors the Python scanner loop. -/
def parseListLoop (pv : List Char → Option (JValue × List Char)) :
    Nat → List Char → Option (List JValue × List Char)
  | 0, _ => none
  | fuel + 1, cs =>
    match pv (skipWs cs) with
    | none => none
    | some (v, rest) =>
      match skipWs rest with
      | ',' :: r2 =>
        match parseListLoop pv fuel r2 with
        | some (vs, r3) => some (v :: vs, r3)
        | none => none
      | ']' :: r2 => some ([v], r2)
      | _ => none

/-- Key-value pairs of a JSON object after the opening brace, given a parser
for one value; duplicate keys overwrite as in a Python dict. -/
def parseObjLoop (pv : List Char → Option (JValue × List Char)) :
    Nat → List (String × JValue) → List Char → Option (List (String × JValue) × List Char)
  | 0, _, _ => none
  | fuel + 1, acc, cs =>
    match skipWs cs with
    | '"' :: rest =>
      match parseStringBody (rest.length + 1) rest with
      | none => none
      | some (key, r1) =>
        match skipWs r1 with
        | ':' :: r2 =>
          match pv (skipWs r2) with
          | none => none
          | some (v, r3) =>
            match skipWs r3 with
            | ',' :: r4 => parseObjLoop pv fuel (dictInsert acc ⟨key⟩ v) r4
            | '\x7d' :: r4 => some (dictInsert acc ⟨key⟩ v, r4)
            | _ => none
        | _ => none
    | _ => none

/-- One JSON value, fuel-based recursive descent in the order the Python
scanner tries alternatives. -/
def parseAny : Nat → List Char → Option (JValue × List Char)
  | 0, _ => none
  | fuel + 1, cs =>
    match cs with
    | '"' :: rest =>
      match parseStringBody (rest.length + 1) rest with
      | some (body, r) => some (.str ⟨body⟩, r)
      | none => none
    | '\x7b' :: rest =>
      match skipWs rest with
      | '\x7d' :: r2 => some (.obj [], r2)
      | r2 =>
        match parseObjLoop (parseAny fuel) fuel [] r2 with
        | some (fs, r3) => some (.obj fs, r3)
        | none => none
    | '[' :: rest =>
      match skipWs rest with
      | ']' :: r2 => some (.arr [], r2)
      | r2 =>
        match parseListLoop (parseAny fuel) fuel r2 with
        | some (vs, r3) => some (.arr vs, r3)
        | none => none
    | _ =>
      if ("true".data.isPrefixOf cs) then some (.bool true, cs.drop 4)
      else if ("false".data.isPrefixOf cs) then some (.bool false, cs.drop 5)
      else if ("null".data.isPrefixOf cs) then some (.null, cs.drop 4)
      else
        match parseNumber cs with
        | some (lex, rest) => some (.num lex, rest)
        | none =>
          if ("NaN".data.isPrefixOf cs) then some (.num "NaN", cs.drop 3)
          else if ("Infinity".data.isPrefixOf cs) then some (.num "Infinity", cs.drop 8)
          else if ("-Infinity".data.isPrefixOf cs) then some (.num "-Infinity", cs.drop 9)
          else none

/-- Model of Python `json.loads`: parse one value, require only whitespace
after it; `none` is the `json.JSONDecodeError` outcome. -/
def pyJsonLoads (s : String) : Option JValue :=
  match parseAny (s.data.length + 2) (skipWs s.data) with
  | some (v, rest) => if (skipWs rest).isEmpty then some v else none
  | none => none

/-- Placeholder bullet text appended by the normalizer (main.py lines 264, 285). -/
def placeholderText : String := "Additional information not available"

/-- Default next step used when the model supplies none (main.py lines 260, 271). -/
def defaultNextStep : String := "Review the summary and take appropriate action."

/-- The tagged fence marker, three backticks followed by `json`. -/
def fenceJson : String := "\x60\x60\x60json"

/-- The plain fence marker, three backticks. -/
def fenceMark : String := "\x60\x60\x60"

/-- Fence extraction of main.py lines 253-256: if the text contains the
tagged marker, Python `content.split("(fence)json")[1].split("(fence)")[0]`;
otherwise, if it contains the plain marker, the analogous untagged split;
otherwise the raw text.  `split(sep)[1]` is the segment after the first
occurrence of `sep`, and the following `split(...)[0]` cuts it at the next
marker. -/
def extractFenced (content : String) : String :=
  if containsSub fenceJson.data content.data then
    ⟨upToFirstSub fenceMark.data (splitOnceLast fenceJson.data content.data)⟩
  else if containsSub fenceMark.data content.data then
    ⟨upToFirstSub fenceMark.data (splitOnceLast fenceMark.data content.data)⟩
  else content

/-- Bullet markers of the heuristic path, exactly the tuple at main.py line
275.  The second entry is the three-character sequence U+00E2 U+20AC U+00A2:
the source file stores the UTF-8 bytes of a mojibake rendering of the bullet
character, not U+2022 itself. -/
def bulletMarkers : List String :=
  ["-", "â€¢", "*", "1.", "2.", "3.", "4.", "5."]

/-- Character set of the `lstrip` call at main.py line 277 (same mojibake
sequence, the asterisk, every digit, the dot and the space). -/
def markerStripChars : List Char :=
  ("-â€¢*0123456789. ").data

/-- Line classification `line.startswith((...))` of main.py line 275. -/
def isMarkerLine (line : String) : Bool :=
  bulletMarkers.any (fun m => m.data.isPrefixOf line.data)

/-- Line classification of main.py line 280: the lowercased line contains
`next step` or `action`. -/
def hasNextStepCue (line : String) : Bool :=
  containsSub "next step".data (pyLower line).data ||
    containsSub "action".data (pyLower line).data

/-- Text after the first colon, stripped: `line.split(":", 1)[-1].strip()`. -/
def afterColon (line : String) : String :=
  pyStrip ⟨splitOnceLast [':'] line.data⟩

/-- One iteration of the heuristic loop, main.py lines 273-281: the line is
stripped; a marker line contributes its `lstrip` residue as a bullet when
that residue is nonempty (and never touches the next step); otherwise a line
with a next-step cue replaces the next step by the text after the first
colon, or by the whole line when it has no colon. -/
def heuristicStep (acc : List String × String) (rawLine : String) :
    List String × String :=
  if isMarkerLine (pyStrip rawLine) then
    if pyLStripSet markerStripChars (pyStrip rawLine) = "" then acc
    else (acc.1 ++ [pyLStripSet markerStripChars (pyStrip rawLine)], acc.2)
  else if hasNextStepCue (pyStrip rawLine) then
    (acc.1,
      if containsSub [':'] (pyStrip rawLine).data then afterColon (pyStrip rawLine)
      else pyStrip rawLine)
  else acc

/-- Bullet-count normalization of main.py lines 263-265 and 284-286: append
the placeholder until five entries, then keep the first five. -/
def padFive (bullets : List String) : List String :=
  (bullets ++ List.replicate (5 - bullets.length) placeholderText).take 5

/-- Fold of the heuristic loop over `content.strip().split("\n")`. -/
def heuristicRaw (content : String) : List String × String :=
  ((splitOnChar '\n' (pyStrip content).data).map (fun l => (⟨l⟩ : String))).foldl
    heuristicStep ([], defaultNextStep)

/-- Heuristic fallback path of the normalizer, main.py lines 267-286. -/
def heuristicParse (content : String) : List String × String :=
  (padFive (heuristicRaw content).1, (heuristicRaw content).2)

/-- Python exceptions the normalizer region can raise past its
`except json.JSONDecodeError` clause; the payload is a short tag, since no
verified property inspects the exception message. -/
inductive PyErr where
  | attributeError (tag : String)
  | typeError (tag : String)
  | validationError (tag : String)
deriving DecidableEq

/-- Conversion of one JSON value to a bullet text as pydantic field
validation of `BulletPoint.text : str` performs it: only a string passes. -/
def listAsStrings : List JValue → Option (List String)
  | [] => some []
  | JValue.str s :: rest =>
    match listAsStrings rest with
    | some ts => some (s :: ts)
    | none => none
  | _ :: _ => none

/-- Normalization of the parsed `bullets` value together with the parsed
`nextStep` value, main.py lines 262-265 and 288-298.  A list is padded and
truncated to five entries; a string of length at least five is sliced to its
first five characters (each becoming a one-character bullet); a shorter
string or a small dict has no `append` attribute; other values have no
`len`. -/
def bulletsNormalize (bulletsV nextV : JValue) : Except PyErr (List String × String) :=
  match bulletsV with
  | JValue.arr items =>
    match listAsStrings ((items ++ List.replicate (5 - items.length)
        (JValue.str placeholderText)).take 5), nextV with
    | some texts, JValue.str ns => Except.ok (texts, ns)
    | none, _ => Except.error (.validationError "bullet text not a string")
    | some _, _ => Except.error (.validationError "nextStep not a string")
  | JValue.str s =>
    if s.length < 5 then Except.error (.attributeError "str has no append")
    else
      match nextV with
      | JValue.str ns => Except.ok ((s.data.take 5).map String.singleton, ns)
      | _ => Except.error (.validationError "nextStep not a string")
  | JValue.obj f2 =>
    if f2.length < 5 then Except.error (.attributeError "dict has no append")
    else Except.error (.typeError "dict cannot be sliced")
  | _ => Except.error (.typeError "object has no len")

/-- JSON-success path of the normalizer, main.py lines 258-265: a parsed
non-object has no `get` attribute; on an object the `bullets` field defaults
to the empty list and `nextStep` to the fixed fallback sentence. -/
def jsonBranch (parsed : JValue) : Except PyErr (List String × String) :=
  match parsed with
  | JValue.obj fields =>
    bulletsNormalize ((dictGet fields "bullets").getD (JValue.arr []))
      ((dictGet fields "nextStep").getD (JValue.str defaultNextStep))
  | _ => Except.error (.attributeError "object has no get")

/-- The summary normalizer, main.py lines 250-298: fence extraction, strict
JSON parse of the stripped content, the object path on success and the
line-based heuristics on `json.JSONDecodeError`; an `Except.error` models an
exception escaping the region (caught only by the enclosing handler). -/
def normalizeSummary (content0 : String) : Except PyErr (List String × String) :=
  match pyJsonLoads (pyStrip (extractFenced content0)) with
  | none => Except.ok (heuristicParse (extractFenced content0))
  | some parsed => jsonBranch parsed

/-- Outcome of the single upstream HTTP call a handler makes: a response with
status and body text, an `httpx.TimeoutException`, an `httpx.ConnectError`,
or any other exception raised by the call. -/
inductive Upstream where
  | response (status : Nat) (body : String)
  | timeoutErr (msg : String)
  | connectErr (msg : String)
  | otherErr (msg : String)
deriving DecidableEq

/-- Whether the upstream outcome is the timeout exception. -/
def Upstream.isTimeoutErr : Upstream → Bool
  | .timeoutErr _ => true
  | _ => false

/-- Response of the transcription handler as the client sees it: either the
success payload or an error status with its detail string. -/
inductive TResp where
  | success (transcription : String)
  | failure (status : Nat) (detail : String)
deriving DecidableEq

/-- Response of the summarization handler as the client sees it. -/
inductive SResp where
  | success (bullets : List String) (nextStep : String)
  | failure (status : Nat) (detail : String)
deriving DecidableEq

/-- HTTP status of a transcription response (200 on success). -/
def TResp.statusCode : TResp → Nat
  | .success _ => 200
  | .failure s _ => s

/-- HTTP status of a summarization response (200 on success). -/
def SResp.statusCode : SResp → Nat
  | .success _ _ => 200
  | .failure s _ => s

/-- Model of the starlette `HTTPException.__str__`, which renders
`"(status): (detail)"`; this is what `str(e)` produces when the catch-all
`except Exception` clause wraps an `HTTPException` it has swallowed. -/
def strOfHTTPExc (status : Nat) (detail : String) : String :=
  toString status ++ ": " ++ detail

/-- Tag rendering of `str(e)` for the normalizer exceptions; the precise
Python message text is not verified and no theorem depends on it. -/
def strOfPyErr : PyErr → String
  | .attributeError t => "AttributeError: " ++ t
  | .typeError t => "TypeError: " ++ t
  | .validationError t => "ValidationError: " ++ t

/-- Detail of the 500 raised when `GROQ_API_KEY` is empty (both handlers use
the same sentence). -/
def configDetail : String :=
  "Groq API not configured. Please set GROQ_API_KEY environment variable."

/-- Detail of the 400 for a bad extension.  The Python code joins a `set`,
whose iteration order is implementation-defined; the exact join text is not
verified and no theorem depends on it. -/
def badFormatDetail : String :=
  "Unsupported file format. Allowed formats: .wav, .mp3, .m4a, .webm, .ogg, .flac, .aac"

/-- Detail of the 504 raised from `except httpx.TimeoutException`. -/
def timeoutDetail : String :=
  "Transcription timed out. Please try with a shorter audio file."

/-- Detail of the 503 raised from `except httpx.ConnectError`. -/
def connectDetail : String :=
  "Cannot connect to Groq API. Please check your internet connection."

/-- Stand-in for the message of the exception raised when the Whisper
response body does not decode to a dict with a string `text`; no theorem
depends on its text. -/
def whisperShapeDetail : String := "whisper response shape error"

/-- Stand-in for the message of the exception raised when the chat response
body lacks the `choices[0].message.content` string; no theorem depends on its
text. -/
def chatShapeDetail : String := "chat response shape error"

/-- Allowed upload extensions, main.py line 114. -/
def allowedExtensions : List String :=
  [".wav", ".mp3", ".m4a", ".webm", ".ogg", ".flac", ".aac"]

/-- Extension computation of main.py line 115:
`Path(file.filename).suffix.lower() if file.filename else ""`; a missing or
empty filename is falsy and yields the empty string. -/
def fileExt (filename : Option String) : String :=
  match filename with
  | none => ""
  | some f => if f = "" then "" else pyLower (pathSuffix f)

/-- Transcription text extraction of main.py lines 163-164:
`response.json()` then `result.get("text", "").strip()`.  `none` stands for
any exception on this path (body not JSON, not a dict, or a non-string
`text`), which the catch-all clause converts to a 500. -/
def whisperText (body : String) : Option String :=
  match pyJsonLoads body with
  | some (JValue.obj fs) =>
    match (dictGet fs "text").getD (JValue.str "") with
    | JValue.str t => some t
    | _ => none
  | _ => none

/-- What the `try` block of the transcription handler produces once the
upstream call resolves, main.py lines 147-185, paired with whether the
temporary file still exists at handler return.  A timeout is caught by
`except httpx.TimeoutException`, which raises the 504 without deleting the
temporary file.  A response first deletes the temporary file (line 155); a
non-200 status then raises `HTTPException(502, ...)`, which the later
`except Exception` clause catches and wraps into a 500 whose detail embeds
`str(e)`.  Every other exception reaches the catch-all, which deletes the
file and wraps the message into a 500. -/
def transcribeUpstreamPhase (upstream : Upstream) : TResp × Bool :=
  match upstream with
  | .timeoutErr _ => (.failure 504 timeoutDetail, true)
  | .connectErr m => (.failure 500 ("Transcription failed: " ++ m), false)
  | .otherErr m => (.failure 500 ("Transcription failed: " ++ m), false)
  | .response st body =>
    if st ≠ 200 then
      (.failure 500 ("Transcription failed: " ++
        strOfHTTPExc 502 ("Groq Whisper API error: " ++ body)), false)
    else
      match whisperText body with
      | some t => (.success (pyStrip t), false)
      | none => (.failure 500 ("Transcription failed: " ++ whisperShapeDetail), false)

/-- Full observable outcome of one `/transcribe` request. -/
structure TranscribeOutcome where
  resp : TResp
  upstreamCalled : Bool
  tempFileRemains : Bool
deriving DecidableEq

/-- The `/transcribe` handler, main.py lines 99-185, as a function of the
configured key (already stripped at module load), the upload filename and
the upstream outcome.  The configuration check and the extension check raise
before the `try` block, so their `HTTPException` reaches the client
unchanged and no temporary file is created. -/
def transcribe_audio (groqApiKey : String) (filename : Option String)
    (upstream : Upstream) : TranscribeOutcome :=
  if groqApiKey = "" then ⟨.failure 500 configDetail, false, false⟩
  else if (allowedExtensions.contains (fileExt filename)) = false then
    ⟨.failure 400 badFormatDetail, false, false⟩
  else
    ⟨(transcribeUpstreamPhase upstream).1, true, (transcribeUpstreamPhase upstream).2⟩

/-- Content extraction of main.py line 247:
`result["choices"][0]["message"]["content"]`, requiring a string (a
non-string makes the following fence test raise).  `none` stands for any
exception on this path, which the catch-all clause converts to a 500. -/
def chatContent (body : String) : Option String :=
  match pyJsonLoads body with
  | some (JValue.obj fs) =>
    match dictGet fs "choices" with
    | some (JValue.arr (c0 :: _)) =>
      match c0 with
      | JValue.obj ms =>
        match dictGet ms "message" with
        | some (JValue.obj cs2) =>
          match dictGet cs2 "content" with
          | some (JValue.str content) => some content
          | _ => none
        | _ => none
      | _ => none
    | _ => none
  | _ => none

/-- The `/summarize` handler, main.py lines 188-309.  The `except` clauses of
its `try` statement are `httpx.ConnectError` (503) and the catch-all
`Exception` (500): a timeout is an ordinary exception here, and the
`HTTPException(502, ...)` raised for a non-200 upstream status is swallowed
by the catch-all and surfaces as a 500 embedding `str(e)`.  A normalizer
exception likewise becomes a 500. -/
def summarize_transcription (groqApiKey : String) (upstream : Upstream) : SResp :=
  if groqApiKey = "" then .failure 500 configDetail
  else
    match upstream with
    | .timeoutErr m => .failure 500 ("Summarization failed: " ++ m)
    | .connectErr _ => .failure 503 connectDetail
    | .otherErr m => .failure 500 ("Summarization failed: " ++ m)
    | .response st body =>
      if st ≠ 200 then
        .failure 500 ("Summarization failed: " ++
          strOfHTTPExc 502 ("Groq API error: " ++ body))
      else
        match chatContent body with
        | none => .failure 500 ("Summarization failed: " ++ chatShapeDetail)
        | some content =>
          match normalizeSummary content with
          | Except.ok (bs, ns) => .success bs ns
          | Except.error e => .failure 500 ("Summarization failed: " ++ strOfPyErr e)

/-- Boolean test that a JSON value is a string. -/
def isStrB : JValue → Bool
  | JValue.str _ => true
  | _ => false

/-- Hypothesis shape for the amended totality claim: the `bullets` field is
absent or is a list whose elements are all strings. -/
def bulletsFieldOK : Option JValue → Bool
  | none => true
  | some (JValue.arr items) => items.all isStrB
  | some _ => false

/-- Hypothesis shape for the amended totality claim: the `nextStep` field is
absent or a string. -/
def nextFieldOK : Option JValue → Bool
  | none => true
  | some (JValue.str _) => true
  | some _ => false

lemma isStrB_exists {j : JValue} (h : isStrB j = true) : ∃ s, j = JValue.str s := by
  cases j
  case str s => exact ⟨s, rfl⟩
  all_goals simp [isStrB] at h

lemma listAsStrings_all_some :
    ∀ (l : List JValue), (∀ j ∈ l, ∃ s, j = JValue.str s) →
      ∃ ts, listAsStrings l = some ts ∧ ts.length = l.length
  | [], _ => ⟨[], rfl, rfl⟩
  | j :: l, h => by
    obtain ⟨s, rfl⟩ := h j (List.mem_cons_self j l)
    obtain ⟨ts, hts, hlen⟩ :=
      listAsStrings_all_some l (fun x hx => h x (List.mem_cons_of_mem _ hx))
    exact ⟨s :: ts, by simp [listAsStrings, hts], by simp [hlen]⟩

lemma listAsStrings_length :
    ∀ (l : List JValue) (ts : List String), listAsStrings l = some ts →
      ts.length = l.length
  | [], ts, h => by simp [listAsStrings] at h; simp [← h]
  | j :: l, ts, h => by
    cases j <;> simp [listAsStrings] at h
    rcases hrec : listAsStrings l with _ | ts0 <;> rw [hrec] at h
    · exact absurd h (by simp)
    · rcases h with ⟨rfl⟩
      simp [listAsStrings_length l ts0 hrec]

lemma listAsStrings_append :
    ∀ (l₁ : List JValue) {l₂ : List JValue} {ts₁ ts₂ : List String},
      listAsStrings l₁ = some ts₁ → listAsStrings l₂ = some ts₂ →
      listAsStrings (l₁ ++ l₂) = some (ts₁ ++ ts₂)
  | [], l₂, ts₁, ts₂, h₁, h₂ => by
    have hnil : ts₁ = [] := by simpa [listAsStrings] using h₁.symm
    subst hnil
    simpa using h₂
  | j :: l₁, l₂, ts₁, ts₂, h₁, h₂ => by
    cases j <;> simp [listAsStrings] at h₁
    rcases hrec : listAsStrings l₁ with _ | ts0 <;> rw [hrec] at h₁
    · exact absurd h₁ (by simp)
    · rcases h₁ with ⟨rfl⟩
      simp [listAsStrings, listAsStrings_append l₁ hrec h₂]

lemma listAsStrings_replicate (k : Nat) (p : String) :
    listAsStrings (List.replicate k (JValue.str p)) = some (List.replicate k p) := by
  induction k with
  | zero => rfl
  | succ n ih => simp [List.replicate_succ, listAsStrings, ih]

lemma listAsStrings_take :
    ∀ (l : List JValue) {ts : List String} (n : Nat), listAsStrings l = some ts →
      listAsStrings (l.take n) = some (ts.take n)
  | [], ts, n, h => by
    have hnil : ts = [] := by simpa [listAsStrings] using h.symm
    subst hnil
    simp [listAsStrings]
  | j :: l, ts, n, h => by
    cases j <;> simp [listAsStrings] at h
    rcases hrec : listAsStrings l with _ | ts0 <;> rw [hrec] at h
    · exact absurd h (by simp)
    · rcases h with ⟨rfl⟩
      cases n with
      | zero => rfl
      | succ n => simp [listAsStrings, listAsStrings_take l n hrec]

lemma padFive_length (l : List String) : (padFive l).length = 5 := by
  simp [padFive, List.length_take, List.length_append, List.length_replicate]
  omega

lemma heuristicParse_fst_length (c : String) : (heuristicParse c).1.length = 5 :=
  padFive_length _

lemma bulletsNormalize_arr_ok (items : List JValue) (ns : String)
    (h : items.all isStrB = true) :
    ∃ texts, bulletsNormalize (JValue.arr items) (JValue.str ns) =
      Except.ok (texts, ns) ∧ texts.length = 5 := by
  have hmem : ∀ j ∈ (items ++ List.replicate (5 - items.length)
      (JValue.str placeholderText)).take 5, ∃ s, j = JValue.str s := by
    intro j hj
    rcases List.mem_append.mp (List.take_subset _ _ hj) with h1 | h2
    · exact isStrB_exists (List.all_eq_true.mp h j h1)
    · exact ⟨placeholderText, List.eq_of_mem_replicate h2⟩
  obtain ⟨ts, hts, hlen⟩ := listAsStrings_all_some _ hmem
  refine ⟨ts, ?_, ?_⟩
  · simp only [bulletsNormalize, hts]
  · rw [hlen]
    simp [List.length_take, List.length_append, List.length_replicate]
    omega

/-- Boolean success projection for normalizer results. -/
def summaryIsOk : Except PyErr (List String × String) → Bool
  | Except.ok _ => true
  | Except.error _ => false

/-- C1 counterexample: the claim says the normalizer never raises on any
input, including valid JSON that is not an object; but on the input `5`
(valid JSON, not an object) `json.loads` succeeds, `parsed.get` raises
`AttributeError`, and the exception escapes the normalizer region (the
enclosing handler turns it into a 500). -/
theorem C1_counterexample :
    normalizeSummary "5" = Except.error (PyErr.attributeError "object has no get") ∧
    summaryIsOk (normalizeSummary "5") = false :=
  ⟨rfl, rfl⟩

/-- C1 (amended): the normalizer never raises and produces exactly five
bullet strings and one next-step string for every input whose fence-extracted
stripped content either fails the strict JSON parse (heuristic path) or
parses to a JSON object whose `bullets` field is absent or a list of strings
and whose `nextStep` field is absent or a string; valid non-object JSON (and
non-list or non-string field values) instead raises, surfaced as a 500 by
the handler. -/
theorem C1_amended_normalizer_total (content : String)
    (h : pyJsonLoads (pyStrip (extractFenced content)) = none ∨
      ∃ fields, pyJsonLoads (pyStrip (extractFenced content)) = some (JValue.obj fields) ∧
        bulletsFieldOK (dictGet fields "bullets") = true ∧
        nextFieldOK (dictGet fields "nextStep") = true) :
    ∃ bs ns, normalizeSummary content = Except.ok (bs, ns) ∧ bs.length = 5 := by
  rcases h with hp | ⟨fields, hp, hb, hn⟩
  · refine ⟨(heuristicParse (extractFenced content)).1,
      (heuristicParse (extractFenced content)).2, ?_, heuristicParse_fst_length _⟩
    simp only [normalizeSummary, hp]
  · have hbul : ∃ items, (dictGet fields "bullets").getD (JValue.arr []) =
        JValue.arr items ∧ items.all isStrB = true := by
      rcases hbv : dictGet fields "bullets" with _ | bv
      · exact ⟨[], rfl, rfl⟩
      · rw [hbv] at hb
        cases bv with
        | arr items => exact ⟨items, rfl, by simpa only [bulletsFieldOK] using hb⟩
        | null => exact absurd hb (by simp [bulletsFieldOK])
        | bool b => exact absurd hb (by simp [bulletsFieldOK])
        | num lex => exact absurd hb (by simp [bulletsFieldOK])
        | str s => exact absurd hb (by simp [bulletsFieldOK])
        | obj f => exact absurd hb (by simp [bulletsFieldOK])
    have hnext : ∃ ns, (dictGet fields "nextStep").getD (JValue.str defaultNextStep) =
        JValue.str ns := by
      rcases hnv : dictGet fields "nextStep" with _ | nv
      · exact ⟨defaultNextStep, rfl⟩
      · rw [hnv] at hn
        cases nv with
        | str s => exact ⟨s, rfl⟩
        | null => exact absurd hn (by simp [nextFieldOK])
        | bool b => exact absurd hn (by simp [nextFieldOK])
        | num lex => exact absurd hn (by simp [nextFieldOK])
        | arr items => exact absurd hn (by simp [nextFieldOK])
        | obj f => exact absurd hn (by simp [nextFieldOK])
    obtain ⟨items, hbeq, hall⟩ := hbul
    obtain ⟨ns, hneq⟩ := hnext
    obtain ⟨texts, hok, hlen⟩ := bulletsNormalize_arr_ok items ns hall
    refine ⟨texts, ns, ?_, hlen⟩
    simp only [normalizeSummary, hp, jsonBranch, hbeq, hneq, hok]

/-- C1 witness: the amended theorem applied to a parse-failing input. -/
theorem C1_amended_witness :
    ∃ bs ns, normalizeSummary "hello" = Except.ok (bs, ns) ∧ bs.length = 5 :=
  C1_amended_normalizer_total "hello" (Or.inl rfl)

/-- C2 evaluation at the failing input: for an upstream non-success response
(status 404, body `quota exceeded`) both handlers respond 500, not 502: the
`HTTPException(502, ...)` each handler raises is caught by the catch-all
`except Exception` clause of the same `try` statement and re-raised as a 500
whose detail embeds the string form of the swallowed 502. -/
theorem C2_code_bug_eval :
    (transcribe_audio "key" (some "a.wav") (Upstream.response 404 "quota exceeded")).resp =
      TResp.failure 500 ("Transcription failed: 502: Groq Whisper API error: quota exceeded") ∧
    summarize_transcription "key" (Upstream.response 404 "quota exceeded") =
      SResp.failure 500 ("Summarization failed: 502: Groq API error: quota exceeded") :=
  ⟨rfl, rfl⟩

/-- C3 counterexample: the claim says an upstream timeout yields 504 on both
endpoints, but `/summarize` has no `except httpx.TimeoutException` clause, so
a timeout falls to the catch-all and the client receives 500. -/
theorem C3_counterexample :
    summarize_transcription "key" (Upstream.timeoutErr "Read timed out") =
      SResp.failure 500 ("Summarization failed: Read timed out") ∧
    SResp.statusCode (summarize_transcription "key"
      (Upstream.timeoutErr "Read timed out")) ≠ 504 :=
  ⟨rfl, by decide⟩

/-- C3 (amended): with the service configured and a valid extension,
`/transcribe` maps an upstream timeout to 504 and an unreachable upstream to
500 (no `except httpx.ConnectError` clause there), while `/summarize` maps a
timeout to 500 (no `except httpx.TimeoutException` clause there) and an
unreachable upstream to 503. -/
theorem C3_amended_status_map (key f m : String) (hk : ¬ key = "")
    (hf : allowedExtensions.contains (fileExt (some f)) = true) :
    (transcribe_audio key (some f) (Upstream.timeoutErr m)).resp =
      TResp.failure 504 timeoutDetail ∧
    (transcribe_audio key (some f) (Upstream.connectErr m)).resp =
      TResp.failure 500 ("Transcription failed: " ++ m) ∧
    summarize_transcription key (Upstream.timeoutErr m) =
      SResp.failure 500 ("Summarization failed: " ++ m) ∧
    summarize_transcription key (Upstream.connectErr m) =
      SResp.failure 503 connectDetail := by
  have hf2 : fileExt (some f) ∈ allowedExtensions := by simpa using hf
  refine ⟨?_, ?_, ?_, ?_⟩ <;>
    simp [transcribe_audio, summarize_transcription, hk, hf2,
      transcribeUpstreamPhase]

/-- C3 witness: the amended status map at concrete inputs. -/
theorem C3_amended_witness :
    (transcribe_audio "key" (some "a.wav") (Upstream.timeoutErr "t")).resp =
      TResp.failure 504 timeoutDetail ∧
    summarize_transcription "key" (Upstream.connectErr "t") =
      SResp.failure 503 connectDetail :=
  ⟨(C3_amended_status_map "key" "a.wav" "t" (by decide) rfl).1,
   (C3_amended_status_map "key" "a.wav" "t" (by decide) rfl).2.2.2⟩

/-- C4: on the JSON-success path with a parsed object whose `bullets` is a
list of strings and whose `nextStep` is a string, the output bullets are the
parsed list padded with the placeholder to five entries when shorter and
truncated to its first five entries when longer, with the parsed next step
passed through. -/
theorem C4_json_padding (content : String) (fields : List (String × JValue))
    (items : List JValue) (texts : List String) (ns : String)
    (hp : pyJsonLoads (pyStrip (extractFenced content)) = some (JValue.obj fields))
    (hb : dictGet fields "bullets" = some (JValue.arr items))
    (hs : listAsStrings items = some texts)
    (hn : dictGet fields "nextStep" = some (JValue.str ns)) :
    normalizeSummary content =
      Except.ok ((texts ++ List.replicate (5 - texts.length) placeholderText).take 5,
        ns) := by
  have hlen : texts.length = items.length := listAsStrings_length items texts hs
  have happ := listAsStrings_append items hs
    (listAsStrings_replicate (5 - items.length) placeholderText)
  have htake := listAsStrings_take _ 5 happ
  rw [hlen]
  simp only [normalizeSummary, hp, jsonBranch, hb, hn, Option.getD_some,
    bulletsNormalize, htake]

/-- C4 witness: the two concrete instances named by the claim, a two-bullet
object padded to five and a seven-bullet object truncated to five. -/
theorem C4_witness :
    normalizeSummary "\x7b\"bullets\":[\"a\",\"b\"],\"nextStep\":\"x\"\x7d" =
      Except.ok (["a", "b", placeholderText, placeholderText, placeholderText], "x") ∧
    normalizeSummary
        "\x7b\"bullets\":[\"b1\",\"b2\",\"b3\",\"b4\",\"b5\",\"b6\",\"b7\"],\"nextStep\":\"x\"\x7d" =
      Except.ok (["b1", "b2", "b3", "b4", "b5"], "x") :=
  ⟨C4_json_padding _
      [("bullets", JValue.arr [JValue.str "a", JValue.str "b"]),
        ("nextStep", JValue.str "x")]
      [JValue.str "a", JValue.str "b"] ["a", "b"] "x" rfl rfl rfl rfl,
   C4_json_padding _
      [("bullets", JValue.arr [JValue.str "b1", JValue.str "b2", JValue.str "b3",
        JValue.str "b4", JValue.str "b5", JValue.str "b6", JValue.str "b7"]),
        ("nextStep", JValue.str "x")]
      [JValue.str "b1", JValue.str "b2", JValue.str "b3", JValue.str "b4",
        JValue.str "b5", JValue.str "b6", JValue.str "b7"]
      ["b1", "b2", "b3", "b4", "b5", "b6", "b7"] "x" rfl rfl rfl rfl⟩

/-- C5 counterexample: the claim lists the bullet character U+2022 among the
markers, but the marker tuple in the source holds the three-character
mojibake sequence instead, so a line starting with the real bullet character
produces no bullet at all: the heuristic result is five placeholders, not
`foo` followed by placeholders. -/
theorem C5_counterexample :
    normalizeSummary "• foo" =
      Except.ok ([placeholderText, placeholderText, placeholderText,
        placeholderText, placeholderText], defaultNextStep) ∧
    placeholderText ≠ "foo" :=
  ⟨rfl, by decide⟩

/-- C5 (amended): on the heuristic path the markers are `-`, the mojibake
sequence U+00E2 U+20AC U+00A2, `*`, and `1.` through `5.` (the real bullet
character U+2022 is not one); a marker line contributes the residue of
stripping all leading characters of the `lstrip` set (which can consume
digits and dots belonging to the text) when nonempty and never touches the
next step; a non-marker line containing the case-insensitive cue `next step`
or `action` replaces the next step by the stripped text after the first
colon, or the whole line when it has no colon.  The named concrete instance
of the claim still holds, as do a mojibake-marker line and an over-stripped
line. -/
theorem C5_amended_heuristic (acc : List String × String) (rawLine : String) :
    (isMarkerLine (pyStrip rawLine) = true →
      pyLStripSet markerStripChars (pyStrip rawLine) ≠ "" →
      heuristicStep acc rawLine =
        (acc.1 ++ [pyLStripSet markerStripChars (pyStrip rawLine)], acc.2)) ∧
    (isMarkerLine (pyStrip rawLine) = false →
      hasNextStepCue (pyStrip rawLine) = true →
      containsSub [':'] (pyStrip rawLine).data = true →
      heuristicStep acc rawLine = (acc.1, afterColon (pyStrip rawLine))) ∧
    normalizeSummary "- foo\n* bar\nNext step: do X" =
      Except.ok (["foo", "bar", placeholderText, placeholderText, placeholderText],
        "do X") ∧
    normalizeSummary "â€¢ mojibake item" =
      Except.ok (["mojibake item", placeholderText, placeholderText,
        placeholderText, placeholderText], defaultNextStep) ∧
    normalizeSummary "- 12 cats" =
      Except.ok (["cats", placeholderText, placeholderText, placeholderText,
        placeholderText], defaultNextStep) := by
  refine ⟨?_, ?_, rfl, rfl, rfl⟩
  · intro hm hclean
    simp [heuristicStep, hm, hclean]
  · intro hm hcue hcolon
    simp [heuristicStep, hm, hcue, hcolon]

/-- C5 witness: the two line rules applied at concrete lines. -/
theorem C5_amended_witness :
    heuristicStep (["x"], "n") "- item one" = (["x", "item one"], "n") ∧
    heuristicStep (["x"], "n") "Next step: go" = (["x"], "go") :=
  ⟨(C5_amended_heuristic (["x"], "n") "- item one").1 rfl (by decide),
   (C5_amended_heuristic (["x"], "n") "Next step: go").2.1 rfl rfl rfl⟩

/-- Modelled from the spec for the C6 comparison: the contents of the first
fenced code block of the text, where a block is delimited by a pair of
triple-backtick markers and an optional `json` tag right after the opening
marker is dropped; the raw text when no marker occurs. -/
def specFirstFencedBlock (text : String) : String :=
  if containsSub fenceMark.data text.data then
    if "json".data.isPrefixOf (splitOnceLast fenceMark.data text.data) then
      ⟨upToFirstSub fenceMark.data ((splitOnceLast fenceMark.data text.data).drop 4)⟩
    else ⟨upToFirstSub fenceMark.data (splitOnceLast fenceMark.data text.data)⟩
  else text

/-- Text with an untagged fenced block before a `json`-tagged one. -/
def c6Input : String :=
  fenceMark ++ "\n\x7b\"bullets\":[\"first\"]\x7d\n" ++ fenceMark ++ "\nmore\n" ++
    fenceJson ++ "\n\x7b\"bullets\":[\"second\"]\x7d\n" ++ fenceMark

/-- C6 counterexample: when an untagged fenced block precedes a tagged one,
the first fenced block holds `first`, but the code prefers the first
`json`-tagged block and the normalizer parses `second`. -/
theorem C6_counterexample :
    specFirstFencedBlock c6Input = "\n\x7b\"bullets\":[\"first\"]\x7d\n" ∧
    extractFenced c6Input = "\n\x7b\"bullets\":[\"second\"]\x7d\n" ∧
    extractFenced c6Input ≠ specFirstFencedBlock c6Input ∧
    normalizeSummary c6Input =
      Except.ok (["second", placeholderText, placeholderText, placeholderText,
        placeholderText], defaultNextStep) :=
  ⟨rfl, rfl, by decide, rfl⟩

/-- C6 (amended): the extraction prefers the `json`-tagged marker: when the
text contains the tagged marker, the parsed content is the segment between
the first tagged marker and the next plain marker (or the end of text); else,
when it contains a plain marker, the segment between the first two plain
markers; a text containing neither marker is used raw. -/
theorem C6_amended_extraction (content : String)
    (h1 : containsSub fenceJson.data content.data = false)
    (h2 : containsSub fenceMark.data content.data = false) :
    extractFenced content = content ∧
    extractFenced ("before " ++ fenceJson ++ "inner" ++ fenceMark ++ " after") =
      "inner" ∧
    extractFenced ("pre " ++ fenceMark ++ "mid" ++ fenceMark ++ " post") = "mid" := by
  refine ⟨?_, rfl, rfl⟩
  simp [extractFenced, h1, h2]

/-- C6 witness: a marker-free text passes through unchanged. -/
theorem C6_amended_witness : extractFenced "plain text" = "plain text" :=
  (C6_amended_extraction "plain text" rfl rfl).1

/-- C7: with the service configured, an upload whose computed extension is
outside the allowed set is answered 400 (the check raises before the `try`
block, so the `HTTPException` reaches the client unchanged) and the upstream
transcription API is never called for it. -/
theorem C7_bad_extension_rejected (key : String) (filename : Option String)
    (up : Upstream) (hk : ¬ key = "")
    (hf : allowedExtensions.contains (fileExt filename) = false) :
    (transcribe_audio key filename up).resp = TResp.failure 400 badFormatDetail ∧
    (transcribe_audio key filename up).upstreamCalled = false := by
  have hf2 : ¬ fileExt filename ∈ allowedExtensions := by simpa using hf
  constructor <;> simp [transcribe_audio, hk, hf2]

/-- C7 witness: a `.txt` upload is rejected without an upstream call. -/
theorem C7_witness :
    (transcribe_audio "key" (some "notes.txt")
      (Upstream.response 200 "")).resp = TResp.failure 400 badFormatDetail ∧
    (transcribe_audio "key" (some "notes.txt")
      (Upstream.response 200 "")).upstreamCalled = false :=
  C7_bad_extension_rejected "key" (some "notes.txt") (Upstream.response 200 "")
    (by decide) rfl

/-- C8 counterexample: on an upstream timeout the handler answers 504 from
the `except httpx.TimeoutException` clause, which deletes nothing, so the
temporary file still exists when the handler returns — against the claim
that every exit path removes it. -/
theorem C8_counterexample :
    (transcribe_audio "key" (some "a.wav")
      (Upstream.timeoutErr "t")).tempFileRemains = true ∧
    (transcribe_audio "key" (some "a.wav") (Upstream.timeoutErr "t")).resp =
      TResp.failure 504 timeoutDetail :=
  ⟨rfl, rfl⟩

/-- C8 (amended): on every exit path other than an upstream timeout —
successful transcription, upstream non-success response, connection failure
or any other exception, as well as the early 400/500 rejections that create
no file — the temporary file does not remain on storage when the handler
returns; on a timeout it is left behind. -/
theorem C8_amended_cleanup (key : String) (filename : Option String)
    (up : Upstream) (h : up.isTimeoutErr = false) :
    (transcribe_audio key filename up).tempFileRemains = false := by
  unfold transcribe_audio
  split
  · rfl
  · split
    · rfl
    · show (transcribeUpstreamPhase up).2 = false
      cases up with
      | timeoutErr m => simp [Upstream.isTimeoutErr] at h
      | connectErr m => rfl
      | otherErr m => rfl
      | response st body =>
        simp only [transcribeUpstreamPhase]
        split
        · rfl
        · split <;> rfl

/-- C8 witness: the amended cleanup fact at a success response, a non-success
response and a connection failure. -/
theorem C8_amended_witness :
    (transcribe_audio "key" (some "a.wav")
      (Upstream.response 200 "\x7b\"text\":\"hi\"\x7d")).tempFileRemains = false ∧
    (transcribe_audio "key" (some "a.wav")
      (Upstream.response 503 "busy")).tempFileRemains = false ∧
    (transcribe_audio "key" (some "a.wav")
      (Upstream.connectErr "refused")).tempFileRemains = false :=
  ⟨C8_amended_cleanup "key" (some "a.wav") (Upstream.response 200 "\x7b\"text\":\"hi\"\x7d") rfl,
   C8_amended_cleanup "key" (some "a.wav") (Upstream.response 503 "busy") rfl,
   C8_amended_cleanup "key" (some "a.wav") (Upstream.connectErr "refused") rfl⟩

/-- C9: the extension check lowercases the suffix, so uppercase extensions
such as `.WAV` and `.Mp3` pass validation and the upload is forwarded, while
a missing filename yields the empty suffix and a 400 with no upstream
call. -/
theorem C9_lowercased_suffix (key : String) (up : Upstream) (hk : ¬ key = "") :
    fileExt (some "voice.WAV") = ".wav" ∧
    fileExt (some "clip.Mp3") = ".mp3" ∧
    fileExt none = "" ∧
    (transcribe_audio key (some "voice.WAV") up).upstreamCalled = true ∧
    (transcribe_audio key (some "clip.Mp3") up).upstreamCalled = true ∧
    (transcribe_audio key none up).resp = TResp.failure 400 badFormatDetail ∧
    (transcribe_audio key none up).upstreamCalled = false := by
  refine ⟨rfl, rfl, rfl, ?_, ?_, ?_, ?_⟩
  · unfold transcribe_audio
    rw [if_neg hk, if_neg (by decide)]
  · unfold transcribe_audio
    rw [if_neg hk, if_neg (by decide)]
  · unfold transcribe_audio
    rw [if_neg hk, if_pos (by decide)]
  · unfold transcribe_audio
    rw [if_neg hk, if_pos (by decide)]

/-- C9 witness: the suffix facts and the missing-filename rejection at a
concrete key and upstream outcome. -/
theorem C9_witness :
    fileExt (some "voice.WAV") = ".wav" ∧
    (transcribe_audio "key" none (Upstream.response 200 "")).resp =
      TResp.failure 400 badFormatDetail :=
  ⟨(C9_lowercased_suffix "key" (Upstream.response 200 "") (by decide)).1,
   (C9_lowercased_suffix "key" (Upstream.response 200 "") (by decide)).2.2.2.2.2.1⟩

/-- C10: bullet classification wins over next-step classification — a marker
line never changes the next step, whatever cues it contains — and a marker
line whose `lstrip` residue is empty is dropped entirely, leaving the
accumulator unchanged. -/
theorem C10_marker_precedence (acc : List String × String) (rawLine : String)
    (h : isMarkerLine (pyStrip rawLine) = true) :
    (heuristicStep acc rawLine).2 = acc.2 ∧
    (pyLStripSet markerStripChars (pyStrip rawLine) = "" →
      heuristicStep acc rawLine = acc) := by
  constructor
  · by_cases hc : pyLStripSet markerStripChars (pyStrip rawLine) = ""
    · simp [heuristicStep, h, hc]
    · simp [heuristicStep, h, hc]
  · intro hc
    simp [heuristicStep, h, hc]

/-- C10 witness: a marker line containing the `action` cue leaves the next
step untouched, and a bare marker line is dropped. -/
theorem C10_witness :
    (heuristicStep ([], "keep") "- action: subitem").2 = "keep" ∧
    heuristicStep (["a"], "n") "- " = (["a"], "n") :=
  ⟨(C10_marker_precedence ([], "keep") "- action: subitem" rfl).1,
   (C10_marker_precedence (["a"], "n") "- " rfl).2 rfl⟩
